import Mathlib

/-!
Verification development for the mock weight-oracle daemon
(src/node/weightoracle/testdaemon/daemon.py).

The daemon's request handlers are embedded as pure Lean functions over a
model of Python/JSON values.  Shared-state reads and writes are recorded in
an explicit access trace, each entry annotated with whether the daemon's
single lock is held at that access (transcribed from the extent of the
`with self._lock` blocks in the source).  Python runtime exceptions
(TypeError, AttributeError) raised by handler code are modelled with
`Except`.  The `json.loads` standard-library call is an external
collaborator and is passed in as a parameter; UTF-8 decoding
(`bytes.decode("utf-8")`, also stdlib) is modelled concretely below.
-/

/-- Model of a decoded Python/JSON value (the result of `json.loads`).
Numbers are modelled as integers (the claims only involve integral
numbers); objects are association lists in insertion order. -/
inductive Json where
  | null
  | bool (b : Bool)
  | num (n : Int)
  | str (s : String)
  | arr (xs : List Json)
  | obj (kvs : List (String × Json))

/-- Python truthiness (`bool(v)`) of a decoded JSON value: None, False,
0, the empty string, the empty array and the empty object are falsy. -/
def truthy : Json → Bool
  | .null => false
  | .bool b => b
  | .num n => decide (n ≠ 0)
  | .str s => decide (s ≠ "")
  | .arr xs => !xs.isEmpty
  | .obj kvs => !kvs.isEmpty

/-- Lookup in a Python dict modelled as an association list
(`d.get(key)` returning None on a miss is modelled by `Option`). -/
def dict_find : List (String × Json) → String → Option Json
  | [], _ => none
  | (k, v) :: rest, key => if k = key then some v else dict_find rest key

/-- Lookup in an integer-valued Python dict (the two weight tables). -/
def dict_get : List (String × Int) → String → Option Int
  | [], _ => none
  | (k, v) :: rest, key => if k = key then some v else dict_get rest key

/-- Assignment `d[key] = v` on an integer-valued Python dict: replace the
existing entry for the key, else append. -/
def dict_set : List (String × Int) → String → Int → List (String × Int)
  | [], key, v => [(key, v)]
  | (k, w) :: rest, key, v =>
    if k = key then (key, v) :: rest else (k, w) :: dict_set rest key v

mutual

/-- Python `repr` of a decoded JSON value, used by `str()` on containers.
String escaping inside `repr` of a string is simplified to plain
single-quoting; no claim depends on the repr of containers or on
escaping. -/
def pyRepr : Json → String
  | .null => "None"
  | .bool b => if b then "True" else "False"
  | .num n => toString n
  | .str s => "\x27" ++ s ++ "\x27"
  | .arr xs => "[" ++ pyReprItems xs ++ "]"
  | .obj kvs => "\x7b" ++ pyReprPairs kvs ++ "\x7d"

/-- Comma-separated reprs of the elements of a Python list. -/
def pyReprItems : List Json → String
  | [] => ""
  | [x] => pyRepr x
  | x :: y :: rest => pyRepr x ++ ", " ++ pyReprItems (y :: rest)

/-- Comma-separated reprs of the entries of a Python dict. -/
def pyReprPairs : List (String × Json) → String
  | [] => ""
  | [(k, v)] => "\x27" ++ k ++ "\x27: " ++ pyRepr v
  | (k, v) :: p :: rest =>
    "\x27" ++ k ++ "\x27: " ++ pyRepr v ++ ", " ++ pyReprPairs (p :: rest)

end

/-- Python `str()` of a decoded JSON value, as used by f-string
interpolation in the daemon. -/
def pyStr : Json → String
  | .str s => s
  | j => pyRepr j

/-- Python `v == "<literal>"` for a decoded JSON value compared against a
string literal (only strings can be equal to a string). -/
def json_is_str (j : Json) (s : String) : Bool :=
  match j with
  | .str t => t = s
  | _ => false

/-- Python runtime exceptions the handler code can raise. -/
inductive PyExn where
  | typeError
  | attributeError
deriving DecidableEq

/-- Python `ord(c)`: defined on one-character strings, otherwise a
TypeError. -/
def py_ord : Json → Except PyExn Nat
  | .str s =>
    match s.data with
    | [c] => .ok c.toNat
    | _ => .error .typeError
  | _ => .error .typeError

/-- Sum of `ord` over an iterated sequence of Python values. -/
def py_sum_ords : List Json → Except PyExn Nat
  | [] => .ok 0
  | x :: xs =>
    match py_ord x, py_sum_ords xs with
    | .ok n, .ok m => .ok (n + m)
    | .error e, _ => .error e
    | .ok _, .error e => .error e

/-- Python `sum(ord(c) for c in v)`: iterating a string yields its
characters (code points); iterating a list yields its elements; iterating
a dict yields its keys; non-iterable values raise TypeError. -/
def py_sum_ord_iter : Json → Except PyExn Nat
  | .str s => .ok (s.data.map Char.toNat).sum
  | .arr xs => py_sum_ords xs
  | .obj kvs => py_sum_ords (kvs.map (fun kv => Json.str kv.1))
  | _ => .error .typeError

/-- The three pieces of shared mutable daemon state named by the spec. -/
inductive SharedVar where
  | weightTable
  | addressWeights
  | totalWeight
deriving DecidableEq

/-- Kind of a shared-state access. -/
inductive AccessKind where
  | read
  | write
deriving DecidableEq

/-- One access to shared daemon state, with whether the daemon's lock is
held at the time of the access (transcribed from the `with self._lock`
extents in the source). -/
structure Access where
  var : SharedVar
  kind : AccessKind
  locked : Bool
deriving DecidableEq

/-- Immutable daemon configuration (fields relevant to response
computation; port and artificial latency do not affect any response). -/
structure Config where
  genesis_hash : List Nat
  protocol_version : String
  algorithm_version : String
  default_weight : Option Int

/-- Mutable shared daemon state: the composite-key weight table, the
total weight, and the address-weight table. -/
structure DaemonState where
  weight_table : List (String × Int)
  total_weight : Int
  address_weights : List (String × Int)

/-- Base64 alphabet character for a 6-bit value. -/
def b64chr (n : Nat) : Char :=
  "ABCDEFGHIJKLMNOPQRSTUVWXYZabcdefghijklmnopqrstuvwxyz0123456789+/".data.getD n 'A'

/-- Value of a base64 alphabet character, none for other characters. -/
def b64val (c : Char) : Option Nat :=
  ("ABCDEFGHIJKLMNOPQRSTUVWXYZabcdefghijklmnopqrstuvwxyz0123456789+/".data.indexOf c
    |> fun i => if i < 64 then some i else none)

/-- Standard base64 encoding of a byte list (as in `base64.b64encode`). -/
def b64encode_list : List Nat → List Char
  | [] => []
  | [b1] => [b64chr (b1 / 4), b64chr (b1 % 4 * 16), '=', '=']
  | [b1, b2] =>
    [b64chr (b1 / 4), b64chr (b1 % 4 * 16 + b2 / 16), b64chr (b2 % 16 * 4), '=']
  | b1 :: b2 :: b3 :: rest =>
    b64chr (b1 / 4) :: b64chr (b1 % 4 * 16 + b2 / 16) ::
      b64chr (b2 % 16 * 4 + b3 / 64) :: b64chr (b3 % 64) :: b64encode_list rest

/-- Standard base64 decoding back to a byte list. -/
def b64decode_list : List Char → Option (List Nat)
  | [] => some []
  | a :: b :: c :: d :: rest =>
    (match b64val a, b64val b with
     | some v1, some v2 =>
       if c = '=' ∧ d = '=' ∧ rest = [] then some [v1 * 4 + v2 / 16]
       else if d = '=' ∧ rest = [] then
         match b64val c with
         | some v3 => some [v1 * 4 + v2 / 16, v2 % 16 * 16 + v3 / 4]
         | none => none
       else
         match b64val c, b64val d, b64decode_list rest with
         | some v3, some v4, some bs =>
           some ((v1 * 4 + v2 / 16) :: (v2 % 16 * 16 + v3 / 4) ::
                 (v3 % 4 * 64 + v4) :: bs)
         | _, _, _ => none
     | _, _ => none)
  | _ => none

/-- Base64 encoding to a string, as performed by the identity handler. -/
def b64encode (bs : List Nat) : String := ⟨b64encode_list bs⟩

/-- Base64 decoding of a string. -/
def b64decode (s : String) : Option (List Nat) := b64decode_list s.data

/-- Strict UTF-8 decoding of a byte list (as in `bytes.decode("utf-8")`),
rejecting truncated sequences, stray continuation bytes, overlong
encodings, surrogates and code points above 0x10FFFF; none models a
UnicodeDecodeError. -/
def utf8_decode_aux : List Nat → Option (List Char)
  | [] => some []
  | b :: rest =>
    if b < 128 then (utf8_decode_aux rest).map (Char.ofNat b :: ·)
    else if b < 194 then none
    else if b < 224 then
      match rest with
      | b2 :: rest2 =>
        if 128 ≤ b2 ∧ b2 < 192 then
          (utf8_decode_aux rest2).map (Char.ofNat ((b - 192) * 64 + (b2 - 128)) :: ·)
        else none
      | [] => none
    else if b < 240 then
      match rest with
      | b2 :: b3 :: rest3 =>
        if (if b = 224 then 160 ≤ b2 ∧ b2 < 192
            else if b = 237 then 128 ≤ b2 ∧ b2 < 160
            else 128 ≤ b2 ∧ b2 < 192) ∧ 128 ≤ b3 ∧ b3 < 192 then
          (utf8_decode_aux rest3).map
            (Char.ofNat ((b - 224) * 4096 + (b2 - 128) * 64 + (b3 - 128)) :: ·)
        else none
      | _ => none
    else if b < 245 then
      match rest with
      | b2 :: b3 :: b4 :: rest4 =>
        if (if b = 240 then 144 ≤ b2 ∧ b2 < 192
            else if b = 244 then 128 ≤ b2 ∧ b2 < 144
            else 128 ≤ b2 ∧ b2 < 192) ∧ 128 ≤ b3 ∧ b3 < 192 ∧ 128 ≤ b4 ∧ b4 < 192 then
          (utf8_decode_aux rest4).map
            (Char.ofNat ((b - 240) * 262144 + (b2 - 128) * 4096 +
                         (b3 - 128) * 64 + (b4 - 128)) :: ·)
        else none
      | _ => none
    else none

/-- UTF-8 decoding of a byte buffer to a string. -/
def utf8_decode (bs : List Nat) : Option String :=
  (utf8_decode_aux bs).map fun cs => ⟨cs⟩

/-- The daemon's error response dict. -/
def error_response (message code : String) : Json :=
  .obj [("error", .str message), ("code", .str code)]

/-- The daemon's weight response dict: the weight is serialized via
`str()` as a decimal string, never as a JSON number. -/
def weight_response (w : Int) : Json :=
  .obj [("weight", .str (toString w))]

/-- Response of `_handle_ping`. -/
def handle_ping : Json := .obj [("pong", .bool true)]

/-- Response of `_handle_identity`: genesis hash base64-encoded, version
strings taken from configuration. -/
def handle_identity (cfg : Config) : Json :=
  .obj [("genesis_hash", .str (b64encode cfg.genesis_hash)),
        ("protocol_version", .str cfg.protocol_version),
        ("algorithm_version", .str cfg.algorithm_version)]

/-- Whether a Python value is hashable, that is, usable as a dict key:
lists and dicts are not, every other modelled value is. -/
def py_hashable : Json → Bool
  | .arr _ => false
  | .obj _ => false
  | _ => true

/-- Python membership test `v in d`, then `d[v]`, on a string-keyed dict:
a string key is looked up; hashable non-string values (None, booleans,
numbers) hash fine and match no string key; unhashable values (lists,
dicts) raise TypeError from hashing the key before the dict is
consulted, even when the dict is empty. -/
def py_str_dict_lookup (d : List (String × Int)) : Json → Except PyExn (Option Int)
  | .str s => .ok (dict_get d s)
  | .arr _ => .error .typeError
  | .obj _ => .error .typeError
  | _ => .ok none

/-- Weight resolution performed by `_handle_weight` after field
validation (source lines 220-239): default-weight override first, then
the address-weight table, then the composite key in the weight table,
then the code-point-sum fallback.  The membership test on the
address-weight table raises TypeError for an unhashable (array or object)
address before the composite key is built.  The table accesses happen
inside the `with self._lock` block; the access trace records each
attempted access as locked. -/
def resolve_weight (cfg : Config) (st : DaemonState)
    (address selection_id balance_round : Json) : Except PyExn Json × List Access :=
  match cfg.default_weight with
  | some w => (.ok (weight_response w), [])
  | none =>
    match py_str_dict_lookup st.address_weights address with
    | .error e => (.error e, [⟨.addressWeights, .read, true⟩])
    | .ok (some w) => (.ok (weight_response w), [⟨.addressWeights, .read, true⟩])
    | .ok none =>
      let key := pyStr address ++ ":" ++ pyStr selection_id ++ ":" ++ pyStr balance_round
      match dict_get st.weight_table key with
      | some w =>
        (.ok (weight_response w),
         [⟨.addressWeights, .read, true⟩, ⟨.weightTable, .read, true⟩])
      | none =>
        match py_sum_ord_iter address with
        | .ok n =>
          (.ok (weight_response ((n % 1000000 : Nat) : Int)),
           [⟨.addressWeights, .read, true⟩, ⟨.weightTable, .read, true⟩])
        | .error e =>
          (.error e,
           [⟨.addressWeights, .read, true⟩, ⟨.weightTable, .read, true⟩])

/-- Post-validation weight resolution as the spec-level reading of the
membership test would have it: every non-string address simply misses
the address-weight table, with no hashing error, so each truthy address
flows on into composite-key construction or the fallback computation.
Kept for comparison with `resolve_weight`, from which it differs exactly
on unhashable (array or object) addresses. -/
def resolve_weight_claimed (cfg : Config) (st : DaemonState)
    (address selection_id balance_round : Json) : Except PyExn Json × List Access :=
  match cfg.default_weight with
  | some w => (.ok (weight_response w), [])
  | none =>
    match (match address with
           | .str s => dict_get st.address_weights s
           | _ => none) with
    | some w => (.ok (weight_response w), [⟨.addressWeights, .read, true⟩])
    | none =>
      let key := pyStr address ++ ":" ++ pyStr selection_id ++ ":" ++ pyStr balance_round
      match dict_get st.weight_table key with
      | some w =>
        (.ok (weight_response w),
         [⟨.addressWeights, .read, true⟩, ⟨.weightTable, .read, true⟩])
      | none =>
        match py_sum_ord_iter address with
        | .ok n =>
          (.ok (weight_response ((n % 1000000 : Nat) : Int)),
           [⟨.addressWeights, .read, true⟩, ⟨.weightTable, .read, true⟩])
        | .error e =>
          (.error e,
           [⟨.addressWeights, .read, true⟩, ⟨.weightTable, .read, true⟩])

/-- Handler `_handle_weight`: validates the three required fields in
order (Python truthiness; `request.get` yields None when the field is
missing), then resolves the weight. -/
def handle_weight (cfg : Config) (st : DaemonState)
    (req : List (String × Json)) : Except PyExn Json × List Access :=
  let address := (dict_find req "address").getD .null
  let selection_id := (dict_find req "selection_id").getD .null
  let balance_round := (dict_find req "balance_round").getD .null
  if !truthy address then
    (.ok (error_response "Missing address field" "bad_request"), [])
  else if !truthy selection_id then
    (.ok (error_response "Missing selection_id field" "bad_request"), [])
  else if !truthy balance_round then
    (.ok (error_response "Missing balance_round field" "bad_request"), [])
  else
    resolve_weight cfg st address selection_id balance_round

/-- Handler `_handle_total_weight`: validates `balance_round` then
`vote_round` (Python truthiness), then returns the shared total weight as
a decimal string.  The read of `self.total_weight` at source line 251 is
performed outside any `with self._lock` block, which the access trace
records as an unlocked read. -/
def handle_total_weight (st : DaemonState)
    (req : List (String × Json)) : Json × List Access :=
  let balance_round := (dict_find req "balance_round").getD .null
  let vote_round := (dict_find req "vote_round").getD .null
  if !truthy balance_round then
    (error_response "Missing balance_round field" "bad_request", [])
  else if !truthy vote_round then
    (error_response "Missing vote_round field" "bad_request", [])
  else
    (.obj [("total_weight", .str (toString st.total_weight))],
     [⟨.totalWeight, .read, false⟩])

/-- Administrative mutator `set_weight`: inserts or overwrites one
composite-key entry in the weight table under the lock. -/
def set_weight (st : DaemonState)
    (address selection_id balance_round : String) (weight : Int) :
    DaemonState × List Access :=
  let key := address ++ ":" ++ selection_id ++ ":" ++ balance_round
  ({ st with weight_table := dict_set st.weight_table key weight },
   [⟨.weightTable, .write, true⟩])

/-- Administrative mutator `set_total_weight`: overwrites the shared
total weight under the lock. -/
def set_total_weight (st : DaemonState) (total_weight : Int) :
    DaemonState × List Access :=
  ({ st with total_weight := total_weight },
   [⟨.totalWeight, .write, true⟩])

/-- Dispatcher `_handle_request`: reads the `type` field with default
empty string, dispatches on it, and falls through to an unsupported-type
error.  Applied to a decoded value that is not a JSON object it raises
AttributeError, since only dicts have a `get` method. -/
def handle_request (cfg : Config) (st : DaemonState) (request : Json) :
    Except PyExn Json × List Access :=
  match request with
  | .obj kvs =>
    let req_type := (dict_find kvs "type").getD (.str "")
    if json_is_str req_type "ping" then (.ok handle_ping, [])
    else if json_is_str req_type "identity" then (.ok (handle_identity cfg), [])
    else if json_is_str req_type "weight" then handle_weight cfg st kvs
    else if json_is_str req_type "total_weight" then
      ((Except.ok (handle_total_weight st kvs).1 : Except PyExn Json),
       (handle_total_weight st kvs).2)
    else
      (.ok (error_response ("Unknown request type: " ++ pyStr req_type) "unsupported"), [])
  | _ => (.error .attributeError, [])

/-- The per-connection read loop of `_handle_client` (source lines
140-148): accumulate received chunks; stop when the peer closes the
connection (empty chunk) or when the accumulated buffer contains the byte
125 (the right-brace character).  The result is none when the modelled
chunk sequence is exhausted without a stop condition (a real connection
would block there). -/
def read_loop : List Nat → List (List Nat) → Option (List Nat)
  | _, [] => none
  | data, chunk :: rest =>
    if chunk = [] then some data
    else
      if 125 ∈ data ++ chunk then some (data ++ chunk)
      else read_loop (data ++ chunk) rest

/-- Buffer accumulated by `_handle_client` from the connection's chunks. -/
def read_request (chunks : List (List Nat)) : Option (List Nat) :=
  read_loop [] chunks

/-- Outcome of one connection handling: either the handler would block
forever in `recv`, or it terminates having possibly attempted exactly one
response, with the socket-closed flag from the `finally` block. -/
inductive ClientOutcome where
  | blocked
  | done (response : Option Json) (socket_closed : Bool)

/-- Connection handler `_handle_client`, parameterized over the standard
library `json.loads` (modelled as a function returning the decoded value
or the JSONDecodeError message).  A UTF-8 decode failure raises
UnicodeDecodeError, which is not a `json.JSONDecodeError` and therefore
is not caught by the inner `except` clause; it reaches the outer
`except Exception` block, which logs and sends no response.  The same
outer block catches any exception escaping `_handle_request`.  The
`finally` block closes the socket on every terminating path. -/
def handle_client (json_loads : String → Except String Json)
    (cfg : Config) (st : DaemonState) (chunks : List (List Nat)) : ClientOutcome :=
  match read_request chunks with
  | none => .blocked
  | some [] => .done none true
  | some data =>
    match utf8_decode data with
    | none => .done none true
    | some text =>
      match json_loads text with
      | .error e =>
        .done (some (error_response ("Invalid JSON: " ++ e) "bad_request")) true
      | .ok request =>
        match (handle_request cfg st request).1 with
        | .ok resp => .done (some resp) true
        | .error _ => .done none true

/-- A trace in which every shared-state access holds the lock. -/
def all_locked (t : List Access) : Bool := t.all (fun a => a.locked)

/-- The falsy JSON values enumerated by the field-presence claim. -/
def falsy_values : List Json :=
  [.num 0, .bool false, .null, .str "", .arr [], .obj []]

/-- Sample configuration used by concrete counterexamples and witnesses. -/
def cfg0 : Config :=
  { genesis_hash := List.replicate 32 0
    protocol_version := "1.0"
    algorithm_version := "1.0"
    default_weight := none }

/-- Sample daemon state used by concrete counterexamples and witnesses. -/
def st0 : DaemonState :=
  { weight_table := [], total_weight := 1000000, address_weights := [] }

/-- Request used by concrete weight-request witnesses. -/
def req_a1 : List (String × Json) :=
  [("type", .str "weight"), ("address", .str "A1"),
   ("selection_id", .str "x"), ("balance_round", .str "5")]

/-- Statement of the claim that every connection delivering at least one
byte whose buffer fails to decode as UTF-8 JSON gets an Invalid JSON
error response with code bad_request. -/
def c2_claim_prop : Prop :=
  ∀ (jl : String → Except String Json) (cfg : Config) (st : DaemonState)
    (chunks : List (List Nat)) (data : List Nat),
    read_request chunks = some data → data ≠ [] →
    (utf8_decode data = none ∨
      ∃ text e, utf8_decode data = some text ∧ jl text = .error e) →
    ∃ msg, handle_client jl cfg st chunks =
      .done (some (error_response ("Invalid JSON: " ++ msg) "bad_request")) true

/-- Statement of the claim that every successfully decoded JSON value of
any JSON type gets exactly one response. -/
def c3_claim_prop : Prop :=
  ∀ (jl : String → Except String Json) (cfg : Config) (st : DaemonState)
    (chunks : List (List Nat)) (data : List Nat) (text : String) (v : Json),
    read_request chunks = some data → utf8_decode data = some text →
    jl text = .ok v →
    ∃ r, handle_client jl cfg st chunks = .done (some r) true

/-- Request whose address field is a truthy, non-string, unhashable JSON
array, used by concrete counterexamples and witnesses. -/
def req_arr_addr : List (String × Json) :=
  [("address", .arr [.str "a"]), ("selection_id", .str "x"),
   ("balance_round", .str "5")]

/-- Statement of the part of the truthiness claim asserting that every
truthy value, of any type, passes validation and flows into the
spec-level resolution (address-table membership as a plain miss for
non-strings, then composite-key construction or the fallback
computation). -/
def c10_claim_prop : Prop :=
  ∀ (cfg : Config) (st : DaemonState) (req : List (String × Json)),
    truthy ((dict_find req "address").getD .null) = true →
    truthy ((dict_find req "selection_id").getD .null) = true →
    truthy ((dict_find req "balance_round").getD .null) = true →
    handle_weight cfg st req =
      resolve_weight_claimed cfg st ((dict_find req "address").getD .null)
        ((dict_find req "selection_id").getD .null)
        ((dict_find req "balance_round").getD .null)

/-- Statement of the claim that every read and write of the two weight
tables and of the total-weight value holds the daemon's lock. -/
def c9_claim_prop : Prop :=
  (∀ cfg st req, all_locked (handle_weight cfg st req).2 = true) ∧
  (∀ st req, all_locked (handle_total_weight st req).2 = true) ∧
  (∀ st a s r w, all_locked (set_weight st a s r w).2 = true) ∧
  (∀ st w, all_locked (set_total_weight st w).2 = true)

lemma b64val_b64chr : ∀ n : Nat, n < 64 → b64val (b64chr n) = some n := by decide

lemma b64chr_ne_pad : ∀ n : Nat, n < 64 → b64chr n ≠ '=' := by decide

lemma b64decode_pad2 (v1 v2 : Nat) (h1 : v1 < 64) (h2 : v2 < 64) :
    b64decode_list [b64chr v1, b64chr v2, '=', '='] = some [v1 * 4 + v2 / 16] := by
  simp only [b64decode_list, b64val_b64chr v1 h1, b64val_b64chr v2 h2]
  rw [if_pos ⟨trivial, trivial, trivial⟩]

lemma b64decode_pad1 (v1 v2 v3 : Nat) (h1 : v1 < 64) (h2 : v2 < 64) (h3 : v3 < 64) :
    b64decode_list [b64chr v1, b64chr v2, b64chr v3, '='] =
      some [v1 * 4 + v2 / 16, v2 % 16 * 16 + v3 / 4] := by
  simp only [b64decode_list, b64val_b64chr v1 h1, b64val_b64chr v2 h2,
    b64val_b64chr v3 h3]
  rw [if_neg (fun hc => b64chr_ne_pad v3 h3 hc.1), if_pos ⟨trivial, trivial⟩]

lemma b64decode_group (v1 v2 v3 v4 : Nat)
    (h1 : v1 < 64) (h2 : v2 < 64) (h3 : v3 < 64) (h4 : v4 < 64) (rest : List Char) :
    b64decode_list (b64chr v1 :: b64chr v2 :: b64chr v3 :: b64chr v4 :: rest) =
      match b64decode_list rest with
      | some bs => some ((v1 * 4 + v2 / 16) :: (v2 % 16 * 16 + v3 / 4) ::
                         (v3 % 4 * 64 + v4) :: bs)
      | none => none := by
  simp only [b64decode_list, b64val_b64chr v1 h1, b64val_b64chr v2 h2,
    b64val_b64chr v3 h3, b64val_b64chr v4 h4]
  rw [if_neg (fun hc => b64chr_ne_pad v3 h3 hc.1),
      if_neg (fun hc => b64chr_ne_pad v4 h4 hc.1)]
  cases hbs : b64decode_list rest <;> rfl

theorem b64_roundtrip :
    ∀ bs : List Nat, (∀ b ∈ bs, b < 256) →
      b64decode_list (b64encode_list bs) = some bs
  | [], _ => rfl
  | [b1], h => by
    have hb1 : b1 < 256 := h b1 (by simp)
    show b64decode_list [b64chr (b1 / 4), b64chr (b1 % 4 * 16), '=', '='] = some [b1]
    rw [b64decode_pad2 _ _ (by omega) (by omega)]
    simp only [Option.some.injEq, List.cons.injEq, and_true]
    omega
  | [b1, b2], h => by
    have hb1 : b1 < 256 := h b1 (by simp)
    have hb2 : b2 < 256 := h b2 (by simp)
    show b64decode_list [b64chr (b1 / 4), b64chr (b1 % 4 * 16 + b2 / 16),
      b64chr (b2 % 16 * 4), '='] = some [b1, b2]
    rw [b64decode_pad1 _ _ _ (by omega) (by omega) (by omega)]
    simp only [Option.some.injEq, List.cons.injEq, and_true]
    constructor <;> omega
  | b1 :: b2 :: b3 :: rest, h => by
    have hb1 : b1 < 256 := h b1 (by simp)
    have hb2 : b2 < 256 := h b2 (by simp)
    have hb3 : b3 < 256 := h b3 (by simp)
    have ih := b64_roundtrip rest (fun b hb => h b (by simp [hb]))
    show b64decode_list (b64chr (b1 / 4) :: b64chr (b1 % 4 * 16 + b2 / 16) ::
      b64chr (b2 % 16 * 4 + b3 / 64) :: b64chr (b3 % 64) :: b64encode_list rest) =
      some (b1 :: b2 :: b3 :: rest)
    rw [b64decode_group _ _ _ _ (by omega) (by omega) (by omega) (by omega), ih]
    simp only [Option.some.injEq, List.cons.injEq]
    refine ⟨by omega, by omega, by omega, trivial⟩

lemma truthy_of_falsy (v : Json) (hv : v ∈ falsy_values) : truthy v = false := by
  simp only [falsy_values, List.mem_cons, List.not_mem_nil, or_false] at hv
  rcases hv with rfl | rfl | rfl | rfl | rfl | rfl <;> rfl

/-- C7: for every identity request, the genesis_hash field of the response
base64-decodes to exactly the configured genesis-hash bytes, and the
protocol_version and algorithm_version fields equal the configured version
strings exactly. -/
theorem c7_identity_roundtrip (cfg : Config)
    (hb : ∀ b ∈ cfg.genesis_hash, b < 256)
    (_hlen : cfg.genesis_hash.length = 32) :
    handle_identity cfg =
      .obj [("genesis_hash", .str (b64encode cfg.genesis_hash)),
            ("protocol_version", .str cfg.protocol_version),
            ("algorithm_version", .str cfg.algorithm_version)] ∧
    b64decode (b64encode cfg.genesis_hash) = some cfg.genesis_hash :=
  ⟨rfl, by
    unfold b64decode b64encode
    simpa using b64_roundtrip cfg.genesis_hash hb⟩

/-- Witness for C7 at a concrete 32-byte genesis hash. -/
theorem c7_identity_roundtrip_witness :
    b64decode (b64encode cfg0.genesis_hash) = some cfg0.genesis_hash :=
  (c7_identity_roundtrip cfg0 (by decide) (by decide)).2

/-- C1: for a weight request whose three fields are present, non-empty
strings, the response weight follows the resolution order of the source:
default-weight override with an empty access trace (no lookup), else the
address-weight table, else the composite key in the weight table, else the
code-point-sum fallback modulo 1000000; in each case the weight is placed
in the response as a decimal string (the `weight_response` constructor
wraps `Json.str`, never `Json.num`). -/
theorem c1_weight_resolution (cfg : Config) (st : DaemonState)
    (req : List (String × Json)) (a s r : String)
    (ha : dict_find req "address" = some (.str a)) (hane : a ≠ "")
    (hs : dict_find req "selection_id" = some (.str s)) (hsne : s ≠ "")
    (hr : dict_find req "balance_round" = some (.str r)) (hrne : r ≠ "") :
    (∀ w, cfg.default_weight = some w →
      handle_weight cfg st req = (.ok (weight_response w), [])) ∧
    (cfg.default_weight = none →
      ∀ w, dict_get st.address_weights a = some w →
      handle_weight cfg st req =
        (.ok (weight_response w), [⟨.addressWeights, .read, true⟩])) ∧
    (cfg.default_weight = none → dict_get st.address_weights a = none →
      ∀ w, dict_get st.weight_table (a ++ ":" ++ s ++ ":" ++ r) = some w →
      handle_weight cfg st req =
        (.ok (weight_response w),
         [⟨.addressWeights, .read, true⟩, ⟨.weightTable, .read, true⟩])) ∧
    (cfg.default_weight = none → dict_get st.address_weights a = none →
      dict_get st.weight_table (a ++ ":" ++ s ++ ":" ++ r) = none →
      handle_weight cfg st req =
        (.ok (weight_response (((a.data.map Char.toNat).sum % 1000000 : Nat) : Int)),
         [⟨.addressWeights, .read, true⟩, ⟨.weightTable, .read, true⟩])) := by
  have hw : handle_weight cfg st req = resolve_weight cfg st (.str a) (.str s) (.str r) := by
    unfold handle_weight
    rw [ha, hs, hr]
    simp [truthy, hane, hsne, hrne]
  refine ⟨?_, ?_, ?_, ?_⟩
  · intro w hdef
    rw [hw]; unfold resolve_weight; rw [hdef]
  · intro hdef w haw
    rw [hw]; unfold resolve_weight; rw [hdef]
    simp only [py_str_dict_lookup, haw]
  · intro hdef haw w hwt
    rw [hw]; unfold resolve_weight; rw [hdef]
    simp only [py_str_dict_lookup, haw, pyStr, hwt]
  · intro hdef haw hwt
    rw [hw]; unfold resolve_weight; rw [hdef]
    simp only [py_str_dict_lookup, haw, pyStr, hwt, py_sum_ord_iter]

/-- Witness for C1 at a concrete request hitting the address-weight table. -/
theorem c1_weight_resolution_witness :
    handle_weight cfg0 ⟨[], 1000000, [("A1", 1000000)]⟩ req_a1 =
      (.ok (weight_response 1000000), [⟨.addressWeights, .read, true⟩]) :=
  (c1_weight_resolution cfg0 ⟨[], 1000000, [("A1", 1000000)]⟩ req_a1 "A1" "x" "5"
    rfl (by decide) rfl (by decide) rfl (by decide)).2.1 rfl 1000000 rfl

/-- C4: for a weight request with a missing, null or empty (falsy) required
field, the handler returns a bad_request error naming the first missing
field in the order address, selection_id, balance_round, with an empty
shared-state access trace and a result independent of the configured
default weight and of both tables (the right-hand sides mention neither). -/
theorem c4_weight_missing_field_order (cfg : Config) (st : DaemonState)
    (req : List (String × Json)) :
    (truthy ((dict_find req "address").getD .null) = false →
      handle_weight cfg st req =
        (.ok (error_response "Missing address field" "bad_request"), [])) ∧
    (truthy ((dict_find req "address").getD .null) = true →
      truthy ((dict_find req "selection_id").getD .null) = false →
      handle_weight cfg st req =
        (.ok (error_response "Missing selection_id field" "bad_request"), [])) ∧
    (truthy ((dict_find req "address").getD .null) = true →
      truthy ((dict_find req "selection_id").getD .null) = true →
      truthy ((dict_find req "balance_round").getD .null) = false →
      handle_weight cfg st req =
        (.ok (error_response "Missing balance_round field" "bad_request"), [])) := by
  refine ⟨?_, ?_, ?_⟩
  · intro h1
    simp [handle_weight, h1]
  · intro h1 h2
    simp [handle_weight, h1, h2]
  · intro h1 h2 h3
    simp [handle_weight, h1, h2, h3]

/-- Witness for C4 at the empty request (all three fields missing). -/
theorem c4_weight_missing_field_order_witness :
    handle_weight cfg0 st0 [] =
      (.ok (error_response "Missing address field" "bad_request"), []) :=
  (c4_weight_missing_field_order cfg0 st0 []).1 rfl

/-- C5: for a total_weight request, balance_round is checked first, then
vote_round, each missing one yielding a bad_request error naming it; with
both present the response is the shared total-weight value as a decimal
string, independent of the two field values (the right-hand side mentions
neither). -/
theorem c5_total_weight (st : DaemonState) (req : List (String × Json)) :
    (truthy ((dict_find req "balance_round").getD .null) = false →
      handle_total_weight st req =
        (error_response "Missing balance_round field" "bad_request", [])) ∧
    (truthy ((dict_find req "balance_round").getD .null) = true →
      truthy ((dict_find req "vote_round").getD .null) = false →
      handle_total_weight st req =
        (error_response "Missing vote_round field" "bad_request", [])) ∧
    (truthy ((dict_find req "balance_round").getD .null) = true →
      truthy ((dict_find req "vote_round").getD .null) = true →
      handle_total_weight st req =
        (.obj [("total_weight", .str (toString st.total_weight))],
         [⟨.totalWeight, .read, false⟩])) := by
  refine ⟨?_, ?_, ?_⟩
  · intro h1
    simp [handle_total_weight, h1]
  · intro h1 h2
    simp [handle_total_weight, h1, h2]
  · intro h1 h2
    simp [handle_total_weight, h1, h2]

/-- Witness for C5 at a concrete valid total_weight request. -/
theorem c5_total_weight_witness :
    handle_total_weight st0 [("balance_round", .str "1"), ("vote_round", .str "2")] =
      (.obj [("total_weight", .str "1000000")], [⟨.totalWeight, .read, false⟩]) :=
  (c5_total_weight st0 [("balance_round", .str "1"), ("vote_round", .str "2")]).2.2
    rfl rfl

/-- C6: for a decoded JSON object whose type field is anything other than
the four supported type strings, including a missing type field, the
response is an unsupported-code error carrying the Python string form of
the type value (the empty string when the field is missing). -/
theorem c6_unknown_type (cfg : Config) (st : DaemonState)
    (kvs : List (String × Json)) :
    ((json_is_str ((dict_find kvs "type").getD (.str "")) "ping" = false) →
      (json_is_str ((dict_find kvs "type").getD (.str "")) "identity" = false) →
      (json_is_str ((dict_find kvs "type").getD (.str "")) "weight" = false) →
      (json_is_str ((dict_find kvs "type").getD (.str "")) "total_weight" = false) →
      handle_request cfg st (.obj kvs) =
        (.ok (error_response
          ("Unknown request type: " ++ pyStr ((dict_find kvs "type").getD (.str "")))
          "unsupported"), [])) ∧
    (dict_find kvs "type" = none →
      handle_request cfg st (.obj kvs) =
        (.ok (error_response "Unknown request type: " "unsupported"), [])) := by
  constructor
  · intro h1 h2 h3 h4
    simp only [handle_request, h1, h2, h3, h4, Bool.false_eq_true, if_false]
  · intro h
    have h0 : (dict_find kvs "type").getD (.str "") = .str "" := by rw [h]; rfl
    simp only [handle_request, h0, json_is_str]
    rw [if_neg (by decide), if_neg (by decide), if_neg (by decide), if_neg (by decide)]
    rfl

/-- Witness for C6 at the spec's end-to-end example request type. -/
theorem c6_unknown_type_witness :
    handle_request cfg0 st0 (.obj [("type", .str "bogus")]) =
      (.ok (error_response "Unknown request type: bogus" "unsupported"), []) := by
  have h := (c6_unknown_type cfg0 st0 [("type", .str "bogus")]).1
    (by decide) (by decide) (by decide) (by decide)
  rw [h]
  rfl

/-- C8: the read loop stops exactly at the first chunk boundary where the
peer has closed (empty chunk) or the accumulated buffer contains the
right-brace byte 125 — membership only, with the remaining chunks ignored,
so no JSON balance tracking — and otherwise appends the chunk and
continues; when zero bytes were received in total the handler sends no
response and the socket is closed. -/
theorem c8_read_loop_framing :
    (∀ (data : List Nat) (rest : List (List Nat)),
      read_loop data ([] :: rest) = some data) ∧
    (∀ (data chunk : List Nat) (rest : List (List Nat)), chunk ≠ [] →
      125 ∈ data ++ chunk →
      read_loop data (chunk :: rest) = some (data ++ chunk)) ∧
    (∀ (data chunk : List Nat) (rest : List (List Nat)), chunk ≠ [] →
      125 ∉ data ++ chunk →
      read_loop data (chunk :: rest) = read_loop (data ++ chunk) rest) ∧
    (∀ (jl : String → Except String Json) (cfg : Config) (st : DaemonState)
       (chunks : List (List Nat)), read_request chunks = some [] →
      handle_client jl cfg st chunks = .done none true) := by
  refine ⟨?_, ?_, ?_, ?_⟩
  · intro data rest
    simp [read_loop]
  · intro data chunk rest h1 h2
    simp [read_loop, h1, h2]
  · intro data chunk rest h1 h2
    simp [read_loop, h1, h2]
  · intro jl cfg st chunks h
    unfold handle_client
    rw [h]

/-- Witness for C8: a chunk containing a right brace stops the loop with
the rest of the stream ignored, and an immediately closed connection
yields no response. -/
theorem c8_read_loop_framing_witness :
    read_loop [] ([123, 125] :: [[99]]) = some [123, 125] ∧
    handle_client (fun _ => Except.error "x") cfg0 st0 [[]] = .done none true :=
  ⟨c8_read_loop_framing.2.1 [] [123, 125] [[99]] (by decide) (by decide),
   c8_read_loop_framing.2.2.2 (fun _ => Except.error "x") cfg0 st0 [[]] rfl⟩

/-- C2 counterexample: the connection delivers the byte 255 followed by
the right brace, a buffer that is not valid UTF-8; decoding it raises
UnicodeDecodeError, which the inner except clause (which catches only
json.JSONDecodeError) does not catch, so the outer handler logs it and no
response at all is sent — contradicting the claim that every UTF-8-JSON
decode failure is answered with an Invalid JSON bad_request error. -/
theorem c2_counterexample :
    read_request [[255, 125]] = some [255, 125] ∧
    utf8_decode [255, 125] = none ∧
    handle_client (fun _ => Except.error "x") cfg0 st0 [[255, 125]] =
      .done none true ∧
    ¬ c2_claim_prop := by
  refine ⟨rfl, rfl, rfl, ?_⟩
  intro h
  obtain ⟨msg, hmsg⟩ := h (fun _ => Except.error "x") cfg0 st0 [[255, 125]]
    [255, 125] rfl (by decide) (Or.inl rfl)
  have heval : handle_client (fun _ => Except.error "x") cfg0 st0 [[255, 125]] =
      .done none true := rfl
  rw [heval] at hmsg
  simp at hmsg

/-- C2 amended: on a nonempty buffer, a JSON decode failure on valid UTF-8
text is answered with an Invalid JSON bad_request error, while a buffer
that is not valid UTF-8 produces no response at all — the handler does not
crash and the socket is closed. -/
theorem c2_amended_decode_errors (jl : String → Except String Json)
    (cfg : Config) (st : DaemonState) (chunks : List (List Nat))
    (data : List Nat) (hread : read_request chunks = some data)
    (hne : data ≠ []) :
    (utf8_decode data = none →
      handle_client jl cfg st chunks = .done none true) ∧
    (∀ text e, utf8_decode data = some text → jl text = .error e →
      handle_client jl cfg st chunks =
        .done (some (error_response ("Invalid JSON: " ++ e) "bad_request")) true) := by
  constructor
  · intro hu
    unfold handle_client
    rw [hread]
    cases data with
    | nil => exact absurd rfl hne
    | cons d ds =>
      simp only [hu]
  · intro text e hu hj
    unfold handle_client
    rw [hread]
    cases data with
    | nil => exact absurd rfl hne
    | cons d ds =>
      simp only [hu, hj]

/-- Witness for C2 amended: a two-byte buffer of braces is valid UTF-8,
and a json.loads failure on it yields the Invalid JSON error response. -/
theorem c2_amended_decode_errors_witness :
    handle_client (fun _ => Except.error "boom") cfg0 st0 [[123, 125]] =
      .done (some (error_response ("Invalid JSON: " ++ "boom") "bad_request")) true :=
  (c2_amended_decode_errors (fun _ => Except.error "boom") cfg0 st0 [[123, 125]]
    [123, 125] rfl (by decide)).2 "\x7b\x7d" "boom" rfl rfl

/-- C3 counterexample: the peer sends the single byte for the digit five
and closes; the buffer decodes to the JSON number five, a non-object, so
the dispatcher's attribute access raises AttributeError, which the outer
per-connection except block catches with no response sent — contradicting
the claim that every successfully decoded JSON value of any type gets
exactly one response. -/
theorem c3_counterexample :
    read_request [[53], []] = some [53] ∧
    utf8_decode [53] = some "5" ∧
    handle_client (fun _ => Except.ok (Json.num 5)) cfg0 st0 [[53], []] =
      .done none true ∧
    ¬ c3_claim_prop := by
  refine ⟨rfl, rfl, rfl, ?_⟩
  intro h
  obtain ⟨r, hr⟩ := h (fun _ => Except.ok (Json.num 5)) cfg0 st0 [[53], []]
    [53] "5" (Json.num 5) rfl rfl rfl
  have heval : handle_client (fun _ => Except.ok (Json.num 5)) cfg0 st0 [[53], []] =
      .done none true := rfl
  rw [heval] at hr
  simp at hr

/-- C3 amended: on every terminating path the socket is closed; for a
successfully decoded value, the dispatcher's result is sent as the single
response when it returns one, and a runtime error escaping it
(AttributeError for every non-object value) is caught at the
per-connection boundary with no response sent. -/
theorem c3_amended_error_boundary :
    (∀ (jl : String → Except String Json) (cfg : Config) (st : DaemonState)
       (chunks : List (List Nat)),
      handle_client jl cfg st chunks ≠ .blocked →
      ∃ o, handle_client jl cfg st chunks = .done o true) ∧
    (∀ (jl : String → Except String Json) (cfg : Config) (st : DaemonState)
       (chunks : List (List Nat)) (data : List Nat) (text : String) (v : Json),
      read_request chunks = some data → data ≠ [] →
      utf8_decode data = some text → jl text = .ok v →
      (∀ r, (handle_request cfg st v).1 = .ok r →
        handle_client jl cfg st chunks = .done (some r) true) ∧
      (∀ e, (handle_request cfg st v).1 = .error e →
        handle_client jl cfg st chunks = .done none true)) ∧
    (∀ (cfg : Config) (st : DaemonState) (v : Json),
      (∀ kvs, v ≠ .obj kvs) →
      handle_request cfg st v = (.error .attributeError, [])) := by
  refine ⟨?_, ?_, ?_⟩
  · intro jl cfg st chunks hnb
    unfold handle_client at hnb ⊢
    cases hr : read_request chunks with
    | none => rw [hr] at hnb; exact absurd rfl hnb
    | some data =>
      cases data with
      | nil => exact ⟨none, rfl⟩
      | cons d ds =>
        cases hu : utf8_decode (d :: ds) with
        | none => simp only [hu]; exact ⟨none, rfl⟩
        | some text =>
          simp only [hu]
          cases hj : jl text with
          | error e => simp only [hj]; exact ⟨_, rfl⟩
          | ok v =>
            simp only [hj]
            cases hq : (handle_request cfg st v).1 with
            | ok r => simp only [hq]; exact ⟨some r, rfl⟩
            | error e => simp only [hq]; exact ⟨none, rfl⟩
  · intro jl cfg st chunks data text v hread hne hu hj
    constructor
    · intro r hq
      unfold handle_client
      rw [hread]
      cases data with
      | nil => exact absurd rfl hne
      | cons d ds => simp only [hu, hj, hq]
    · intro e hq
      unfold handle_client
      rw [hread]
      cases data with
      | nil => exact absurd rfl hne
      | cons d ds => simp only [hu, hj, hq]
  · intro cfg st v hv
    cases v with
    | obj kvs => exact absurd rfl (hv kvs)
    | null => rfl
    | bool b => rfl
    | num n => rfl
    | str s => rfl
    | arr xs => rfl

/-- Witness for C3 amended: a decoded ping object yields exactly the pong
response with the socket closed. -/
theorem c3_amended_error_boundary_witness :
    handle_client (fun _ => Except.ok (Json.obj [("type", Json.str "ping")]))
      cfg0 st0 [[123, 125]] = .done (some handle_ping) true :=
  ((c3_amended_error_boundary.2.1
      (fun _ => Except.ok (Json.obj [("type", Json.str "ping")]))
      cfg0 st0 [[123, 125]] [123, 125] "\x7b\x7d"
      (Json.obj [("type", Json.str "ping")]) rfl (by decide) rfl rfl).1
    handle_ping rfl)

/-- C9 counterexample: total_weight request handling reads the shared
total-weight value without holding the daemon's lock (source line 251 is
outside any with-lock block), contradicting the claim that every read and
write of the shared values holds the lock. -/
theorem c9_counterexample :
    (handle_total_weight st0
      [("balance_round", Json.str "1"), ("vote_round", Json.str "1")]).2 =
      [⟨.totalWeight, .read, false⟩] ∧
    ¬ c9_claim_prop := by
  refine ⟨rfl, ?_⟩
  intro h
  have hl := h.2.1 st0 [("balance_round", Json.str "1"), ("vote_round", Json.str "1")]
  have he : all_locked (handle_total_weight st0
      [("balance_round", Json.str "1"), ("vote_round", Json.str "1")]).2 = false := rfl
  rw [hl] at he
  exact absurd he (by decide)

/-- C9 amended: every access to the two weight tables during weight
resolution, the weight-table write in set_weight and the total-weight
write in set_total_weight are performed while holding the daemon's lock;
the one exception is the read of the total-weight value during
total_weight request handling, which is performed without the lock. -/
theorem c9_amended_lock_discipline :
    (∀ (cfg : Config) (st : DaemonState) (req : List (String × Json)),
      all_locked (handle_weight cfg st req).2 = true) ∧
    (∀ (st : DaemonState) (a s r : String) (w : Int),
      all_locked (set_weight st a s r w).2 = true) ∧
    (∀ (st : DaemonState) (w : Int),
      all_locked (set_total_weight st w).2 = true) ∧
    (∀ (st : DaemonState) (req : List (String × Json)),
      (handle_total_weight st req).2 = [] ∨
      (handle_total_weight st req).2 = [⟨.totalWeight, .read, false⟩]) := by
  refine ⟨?_, ?_, ?_, ?_⟩
  · intro cfg st req
    unfold handle_weight
    dsimp only
    split
    · rfl
    · split
      · rfl
      · split
        · rfl
        · unfold resolve_weight
          split
          · rfl
          · split
            · rfl
            · rfl
            · dsimp only
              split
              · rfl
              · split <;> rfl
  · intro st a s r w
    rfl
  · intro st w
    rfl
  · intro st req
    unfold handle_total_weight
    dsimp only
    split
    · exact Or.inl rfl
    · split
      · exact Or.inl rfl
      · exact Or.inr rfl

lemma py_str_dict_lookup_unhashable (d : List (String × Int)) (v : Json)
    (hv : py_hashable v = false) : py_str_dict_lookup d v = .error .typeError := by
  cases v <;> simp_all [py_hashable, py_str_dict_lookup]

/-- C10 counterexample: the address field holds the truthy, non-string
JSON array containing the one-character string a; validation passes, but
the program raises TypeError when the unhashable list is hashed at the
address-table membership test (source line 227), inside the lock and
before the composite key is built, so no response is produced — whereas
the claimed resolution, in which a non-string address simply misses the
table, would flow into the fallback computation and answer weight 97.
This refutes the claim that any truthy non-string value flows into
composite-key construction or the fallback computation. -/
theorem c10_counterexample :
    truthy (.arr [.str "a"]) = true ∧
    handle_weight cfg0 st0 req_arr_addr =
      (.error .typeError, [⟨.addressWeights, .read, true⟩]) ∧
    resolve_weight_claimed cfg0 st0 (.arr [.str "a"]) (.str "x") (.str "5") =
      (.ok (weight_response 97),
       [⟨.addressWeights, .read, true⟩, ⟨.weightTable, .read, true⟩]) ∧
    ¬ c10_claim_prop := by
  refine ⟨rfl, rfl, rfl, ?_⟩
  intro h
  have hh := h cfg0 st0 req_arr_addr rfl rfl rfl
  have e1 : handle_weight cfg0 st0 req_arr_addr =
      (.error .typeError, [⟨.addressWeights, .read, true⟩]) := rfl
  have e2 : resolve_weight_claimed cfg0 st0
      ((dict_find req_arr_addr "address").getD .null)
      ((dict_find req_arr_addr "selection_id").getD .null)
      ((dict_find req_arr_addr "balance_round").getD .null) =
      (.ok (weight_response 97),
       [⟨.addressWeights, .read, true⟩, ⟨.weightTable, .read, true⟩]) := rfl
  rw [e1, e2] at hh
  simp at hh

/-- C10 amended: required-field presence is decided by Python truthiness,
not by the value being a string: a field present with value zero, false,
null, the empty string, the empty array or the empty object is reported
as missing with code bad_request (the first such field in check order
wins), and any truthy value of any type passes validation into the
post-validation resolution; there a truthy hashable address (a string, or
a non-string such as a non-zero number) flows into the address-table
membership and then composite-key construction or the fallback
computation, while a truthy unhashable address (non-empty array or
object) raises TypeError at the address-table membership test, before the
composite key is built, and the request produces no response. -/
theorem c10_truthiness_validation :
    (∀ (cfg : Config) (st : DaemonState) (req : List (String × Json)) (v : Json),
      dict_find req "address" = some v → v ∈ falsy_values →
      handle_weight cfg st req =
        (.ok (error_response "Missing address field" "bad_request"), [])) ∧
    (∀ (cfg : Config) (st : DaemonState) (req : List (String × Json)) (v : Json),
      truthy ((dict_find req "address").getD .null) = true →
      dict_find req "selection_id" = some v → v ∈ falsy_values →
      handle_weight cfg st req =
        (.ok (error_response "Missing selection_id field" "bad_request"), [])) ∧
    (∀ (cfg : Config) (st : DaemonState) (req : List (String × Json)) (v : Json),
      truthy ((dict_find req "address").getD .null) = true →
      truthy ((dict_find req "selection_id").getD .null) = true →
      dict_find req "balance_round" = some v → v ∈ falsy_values →
      handle_weight cfg st req =
        (.ok (error_response "Missing balance_round field" "bad_request"), [])) ∧
    (∀ (st : DaemonState) (req : List (String × Json)) (v : Json),
      dict_find req "balance_round" = some v → v ∈ falsy_values →
      handle_total_weight st req =
        (error_response "Missing balance_round field" "bad_request", [])) ∧
    (∀ (st : DaemonState) (req : List (String × Json)) (v : Json),
      truthy ((dict_find req "balance_round").getD .null) = true →
      dict_find req "vote_round" = some v → v ∈ falsy_values →
      handle_total_weight st req =
        (error_response "Missing vote_round field" "bad_request", [])) ∧
    (∀ (cfg : Config) (st : DaemonState) (req : List (String × Json)),
      truthy ((dict_find req "address").getD .null) = true →
      truthy ((dict_find req "selection_id").getD .null) = true →
      truthy ((dict_find req "balance_round").getD .null) = true →
      handle_weight cfg st req =
        resolve_weight cfg st ((dict_find req "address").getD .null)
          ((dict_find req "selection_id").getD .null)
          ((dict_find req "balance_round").getD .null)) ∧
    (∀ (cfg : Config) (st : DaemonState) (req : List (String × Json)),
      cfg.default_weight = none →
      truthy ((dict_find req "address").getD .null) = true →
      truthy ((dict_find req "selection_id").getD .null) = true →
      truthy ((dict_find req "balance_round").getD .null) = true →
      py_hashable ((dict_find req "address").getD .null) = false →
      handle_weight cfg st req =
        (.error .typeError, [⟨.addressWeights, .read, true⟩])) := by
  refine ⟨?_, ?_, ?_, ?_, ?_, ?_, ?_⟩
  · intro cfg st req v hfind hv
    have hf : truthy ((dict_find req "address").getD .null) = false := by
      rw [hfind]; exact truthy_of_falsy v hv
    simp [handle_weight, hf]
  · intro cfg st req v h1 hfind hv
    have hf : truthy ((dict_find req "selection_id").getD .null) = false := by
      rw [hfind]; exact truthy_of_falsy v hv
    simp [handle_weight, h1, hf]
  · intro cfg st req v h1 h2 hfind hv
    have hf : truthy ((dict_find req "balance_round").getD .null) = false := by
      rw [hfind]; exact truthy_of_falsy v hv
    simp [handle_weight, h1, h2, hf]
  · intro st req v hfind hv
    have hf : truthy ((dict_find req "balance_round").getD .null) = false := by
      rw [hfind]; exact truthy_of_falsy v hv
    simp [handle_total_weight, hf]
  · intro st req v h1 hfind hv
    have hf : truthy ((dict_find req "vote_round").getD .null) = false := by
      rw [hfind]; exact truthy_of_falsy v hv
    simp [handle_total_weight, h1, hf]
  · intro cfg st req h1 h2 h3
    simp [handle_weight, h1, h2, h3]
  · intro cfg st req hdef h1 h2 h3 hv
    simp only [handle_weight, h1, h2, h3, Bool.not_true, Bool.false_eq_true, if_false]
    unfold resolve_weight
    rw [hdef, py_str_dict_lookup_unhashable _ _ hv]

/-- Witness for C10: a present JSON number zero is reported as a missing
address; the truthy non-string number seven passes validation and reaches
the post-validation resolution; and the truthy unhashable array address
raises TypeError at the membership test with no response. -/
theorem c10_truthiness_validation_witness :
    handle_weight cfg0 st0 [("address", Json.num 0)] =
      (.ok (error_response "Missing address field" "bad_request"), []) ∧
    handle_weight cfg0 st0
      [("address", Json.num 7), ("selection_id", Json.str "x"),
       ("balance_round", Json.str "5")] =
      resolve_weight cfg0 st0 (Json.num 7) (Json.str "x") (Json.str "5") ∧
    handle_weight cfg0 st0 req_arr_addr =
      (.error .typeError, [⟨.addressWeights, .read, true⟩]) :=
  ⟨c10_truthiness_validation.1 cfg0 st0 [("address", Json.num 0)] (Json.num 0)
    rfl (by simp [falsy_values]),
   c10_truthiness_validation.2.2.2.2.2.1 cfg0 st0
    [("address", Json.num 7), ("selection_id", Json.str "x"),
     ("balance_round", Json.str "5")] (by decide) (by decide) (by decide),
   c10_truthiness_validation.2.2.2.2.2.2 cfg0 st0 req_arr_addr
    rfl (by decide) (by decide) (by decide) rfl⟩
